import Mathlib

/-!
Verification development for the admission-control and token-lifecycle subsystem
of the repository (FastAPI services with JWT auth, a redis-backed throttle and
three in-process rate-limiter strategies).

The Python sources are shallowly embedded: every class becomes a structure, every
method a function from the explicit state (and the value of `current_time()` /
`datetime.datetime.now(...)`, passed as a rational number of seconds since the
epoch) to an `Except`-wrapped result.  The source is dynamically typed and the
limiter code mixes `datetime` / `timedelta` objects with plain numbers, so the
values flowing through `limiter_strategies.py` are embedded as a small dynamic
value type `PyVal` whose arithmetic returns `Except PyErr PyVal` with exactly
Python's success/TypeError behaviour for the type combinations that can occur.
-/

deriving instance DecidableEq for Except

namespace IntuitDemo

/-- Kinds of Python runtime exception that the embedded code can raise, with the
gist of the Python message. -/
inductive PyErr where
  | typeError (msg : String)
  | attributeError (msg : String)
  | nameError (name : String)
  | valueError (msg : String)
deriving DecidableEq, Repr

/-- Dynamic values of the limiter code: Python `int`, `float` (embedded as a
rational), `datetime.datetime` (seconds since the epoch) and `datetime.timedelta`
(seconds).  Only these four kinds flow through `limiter_strategies.py`. -/
inductive PyVal where
  | int (n : ℤ)
  | float (q : ℚ)
  | dt (t : ℚ)
  | td (d : ℚ)
deriving DecidableEq, Repr

/-- Python `+` on the value kinds above: numbers add, `datetime + timedelta`
and `timedelta + timedelta` are defined, every other mix raises `TypeError`
(in particular `int + timedelta` and `datetime + int`). -/
def pyAdd : PyVal → PyVal → Except PyErr PyVal
  | .int a, .int b => .ok (.int (a + b))
  | .int a, .float b => .ok (.float ((a : ℚ) + b))
  | .float a, .int b => .ok (.float (a + (b : ℚ)))
  | .float a, .float b => .ok (.float (a + b))
  | .dt t, .td d => .ok (.dt (t + d))
  | .td d, .dt t => .ok (.dt (t + d))
  | .td a, .td b => .ok (.td (a + b))
  | _, _ => .error (.typeError "unsupported operand types for +")

/-- Python `-` on the value kinds above: numbers subtract, `datetime - datetime`
is a `timedelta`, `datetime - timedelta` a `datetime`, `timedelta - timedelta` a
`timedelta`; every other mix raises `TypeError`. -/
def pySub : PyVal → PyVal → Except PyErr PyVal
  | .int a, .int b => .ok (.int (a - b))
  | .int a, .float b => .ok (.float ((a : ℚ) - b))
  | .float a, .int b => .ok (.float (a - (b : ℚ)))
  | .float a, .float b => .ok (.float (a - b))
  | .dt a, .dt b => .ok (.td (a - b))
  | .dt a, .td b => .ok (.dt (a - b))
  | .td a, .td b => .ok (.td (a - b))
  | _, _ => .error (.typeError "unsupported operand types for -")

/-- Python `*` on the value kinds above: numbers multiply and a `timedelta`
scales by an `int` or `float`; every other mix raises `TypeError`. -/
def pyMul : PyVal → PyVal → Except PyErr PyVal
  | .int a, .int b => .ok (.int (a * b))
  | .int a, .float b => .ok (.float ((a : ℚ) * b))
  | .float a, .int b => .ok (.float (a * (b : ℚ)))
  | .float a, .float b => .ok (.float (a * b))
  | .td d, .int n => .ok (.td (d * (n : ℚ)))
  | .td d, .float q => .ok (.td (d * q))
  | .int n, .td d => .ok (.td (d * (n : ℚ)))
  | .float q, .td d => .ok (.td (d * q))
  | _, _ => .error (.typeError "unsupported operand types for *")

/-- Python `<` on the value kinds above: numbers compare with numbers,
datetimes with datetimes, timedeltas with timedeltas; every other mix raises
`TypeError`. -/
def pyLt : PyVal → PyVal → Except PyErr Bool
  | .int a, .int b => .ok (decide (a < b))
  | .int a, .float b => .ok (decide ((a : ℚ) < b))
  | .float a, .int b => .ok (decide (a < (b : ℚ)))
  | .float a, .float b => .ok (decide (a < b))
  | .dt a, .dt b => .ok (decide (a < b))
  | .td a, .td b => .ok (decide (a < b))
  | _, _ => .error (.typeError "comparison not supported between instances")

/-- Python `a > b`, as `b < a` (true for the totally ordered kinds embedded). -/
def pyGt (a b : PyVal) : Except PyErr Bool := pyLt b a

/-- Python `a >= b`, as `not (a < b)` (true for the totally ordered kinds
embedded). -/
def pyGe (a b : PyVal) : Except PyErr Bool := do
  let c ← pyLt a b
  pure (!c)

/-- Python `min(a, b)`: returns `b` when `b < a`, else `a`; propagates the
comparison's `TypeError`. -/
def pyMin (a b : PyVal) : Except PyErr PyVal := do
  let c ← pyLt b a
  pure (if c then b else a)

/-- Python `int(x)`: the identity on `int`, truncation toward zero on `float`,
and a `TypeError` on `datetime` / `timedelta` arguments. -/
def pyInt : PyVal → Except PyErr ℤ
  | .int n => .ok n
  | .float q => .ok (if 0 ≤ q then ⌊q⌋ else -⌊-q⌋)
  | _ => .error (.typeError "int argument must be a real number not timedelta")

namespace Limiters

/-!
Embedding of `src/PlayersService/Utils/limiter_strategies.py`.  In that module
`current_time()` returns `datetime.datetime.now(datetime.timezone.utc)`, a
`datetime` object; each method below takes the rational `now` that this call
yields and wraps it as `PyVal.dt now`.
-/

/-- State of `TokenBucket`: `capacity` and `refill_rate` as constructed,
`tokens` (initially `capacity`) and `last_refill_timestamp` (a datetime). -/
structure TokenBucket where
  capacity : PyVal
  tokens : PyVal
  refill_rate : PyVal
  last_refill_timestamp : PyVal
deriving DecidableEq, Repr

/-- Constructor `TokenBucket(capacity, refill_rate)`: `tokens = capacity`,
`last_refill_timestamp = current_time()`. -/
def TokenBucket.mkBucket (capacity refill_rate : PyVal) (now : ℚ) : TokenBucket :=
  { capacity := capacity, tokens := capacity, refill_rate := refill_rate,
    last_refill_timestamp := .dt now }

/-- Method `TokenBucket.refill_tokens`: `elapsed = now - last_refill_timestamp`;
`tokens_to_add = elapsed * refill_rate`; `tokens = min(capacity, tokens +
tokens_to_add)`; `last_refill_timestamp = now`.  Note `elapsed` is a
`timedelta`, so `tokens + tokens_to_add` adds a number to a `timedelta`. -/
def TokenBucket.refill_tokens (b : TokenBucket) (now : ℚ) : Except PyErr TokenBucket := do
  let elapsed ← pySub (.dt now) b.last_refill_timestamp
  let tokens_to_add ← pyMul elapsed b.refill_rate
  let s ← pyAdd b.tokens tokens_to_add
  let t ← pyMin b.capacity s
  pure { b with tokens := t, last_refill_timestamp := .dt now }

/-- Method `TokenBucket.allow_request`: refill, then if `tokens > 0` decrement
and return `True`, else return `False`. -/
def TokenBucket.allow_request (b : TokenBucket) (now : ℚ) :
    Except PyErr (Bool × TokenBucket) := do
  let b ← b.refill_tokens now
  let c ← pyGt b.tokens (.int 0)
  if c then
    let t ← pySub b.tokens (.int 1)
    pure (true, { b with tokens := t })
  else
    pure (false, b)

/-- State of `LeakyBucket`: `capacity` and `leak_rate` as constructed, the FIFO
`queue` of request identifiers, and `last_leak_timestamp` (a datetime). -/
structure LeakyBucket where
  capacity : PyVal
  leak_rate : PyVal
  queue : List ℕ
  last_leak_timestamp : PyVal
deriving DecidableEq, Repr

/-- Constructor `LeakyBucket(capacity, leak_rate)`: empty queue,
`last_leak_timestamp = current_time()`. -/
def LeakyBucket.mkBucket (capacity leak_rate : PyVal) (now : ℚ) : LeakyBucket :=
  { capacity := capacity, leak_rate := leak_rate, queue := [],
    last_leak_timestamp := .dt now }

/-- Method `LeakyBucket.leak`: `elapsed = now - last_leak_timestamp` (a
`timedelta`); `leaks = elapsed * leak_rate` (still a `timedelta`); then
`range(int(leaks))` pops the first queue entry that many times (popping only
while the queue is nonempty is dropping).  `int`` of a `timedelta` raises
`TypeError`. -/
def LeakyBucket.leak (b : LeakyBucket) (now : ℚ) : Except PyErr LeakyBucket := do
  let elapsed ← pySub (.dt now) b.last_leak_timestamp
  let leaks ← pyMul elapsed b.leak_rate
  let n ← pyInt leaks
  pure { b with queue := b.queue.drop n.toNat, last_leak_timestamp := .dt now }

/-- Method `LeakyBucket.allow_request(request)`: leak, then if
`len(queue) < capacity` append the request and return `True`, else `False`. -/
def LeakyBucket.allow_request (b : LeakyBucket) (request : ℕ) (now : ℚ) :
    Except PyErr (Bool × LeakyBucket) := do
  let b ← b.leak now
  let c ← pyLt (.int b.queue.length) b.capacity
  if c then
    pure (true, { b with queue := b.queue ++ [request] })
  else
    pure (false, b)

/-- State of `FixedWindow`: `limit` and `window_size` as constructed, `counter`
(initially the int 0) and `window_start` (a datetime). -/
structure FixedWindow where
  limit : PyVal
  window_size : PyVal
  counter : PyVal
  window_start : PyVal
deriving DecidableEq, Repr

/-- Constructor `FixedWindow(limit, window_size)`: `counter = 0`,
`window_start = current_time()`. -/
def FixedWindow.mkWindow (limit window_size : PyVal) (now : ℚ) : FixedWindow :=
  { limit := limit, window_size := window_size, counter := .int 0,
    window_start := .dt now }

/-- Method `FixedWindow.allow_request`: if `current_time() >= window_start +
window_size` reset the window (`window_start = current_time()`, `counter = 1`)
and admit; elif `counter < limit` increment and admit; else reject.  Note
`window_start` is a datetime, so `window_start + window_size` adds an `int`
to a `datetime` when `window_size` is a number of seconds. -/
def FixedWindow.allow_request (w : FixedWindow) (now : ℚ) :
    Except PyErr (Bool × FixedWindow) := do
  let boundary ← pyAdd w.window_start w.window_size
  let c ← pyGe (.dt now) boundary
  if c then
    pure (true, { w with window_start := .dt now, counter := .int 1 })
  else
    let c2 ← pyLt w.counter w.limit
    if c2 then
      let k ← pyAdd w.counter (.int 1)
      pure (true, { w with counter := k })
    else
      pure (false, w)

end Limiters

namespace PlayersService

/-!
Embedding of the two redis-backed gates of `src/PlayersService/main.py`.  The
redis round-trips are made explicit: each function takes the current value of
its key and returns the decision together with what is written back.  Times are
integers (whole seconds since the epoch), matching
`datetime.datetime.now(datetime.timezone.utc)` restricted to whole seconds —
no behaviour of this module distinguishes finer clock resolutions.
-/

/-- Constant `RATE_LIMIT = 5` (maximum requests), line 19 of
`PlayersService/main.py`. -/
def RATE_LIMIT : ℕ := 5

/-- Constant `RATE_PERIOD = 60`, line 20 of `PlayersService/main.py`. -/
def RATE_PERIOD : ℕ := 60

/-- Constant `THROTTLE_LIMIT = 5` (max requests within the throttle period),
line 22 of `PlayersService/main.py`. -/
def THROTTLE_LIMIT : ℤ := 5

/-- Constant `THROTTLE_PERIOD = 60` seconds, line 23 of
`PlayersService/main.py`. -/
def THROTTLE_PERIOD : ℤ := 60

/-- Constant `COOLDOWN_PERIOD = 30` seconds, line 24 of
`PlayersService/main.py`. -/
def COOLDOWN_PERIOD : ℤ := 30

/-- The stored state of a `rate_limit:{ip}` key: the integer counter text that
`incr` maintains, together with the remaining time-to-live in seconds that
`expire` installed. -/
structure RateKey where
  value : ℕ
  ttl : ℕ
deriving DecidableEq, Repr

/-- Function `check_rate_limit(ip, redis)` (lines 65 to 80): read the counter;
if it exists and is at least `RATE_LIMIT` return `False` without writing;
otherwise `incr` the key (1 on a missing key) and `expire` it to `RATE_PERIOD`
seconds, returning `True`.  The argument is the current state of the key and
the second component of the result is the state written back. -/
def check_rate_limit (current : Option RateKey) : Bool × Option RateKey :=
  match current with
  | some r =>
    if RATE_LIMIT ≤ r.value then
      (false, some r)
    else
      (true, some { value := r.value + 1, ttl := RATE_PERIOD })
  | none => (true, some { value := 1, ttl := RATE_PERIOD })

/-- The stored value of a `throttle:{ip}` key.  The code stores the string
`f"{count}:{reset_time}"` and splits it at the first colon when reading; both
components are written by the code itself from a number and a datetime, so they
are embedded numerically (`count` as the integer the float text denotes — only
whole counts ever arise — and `reset_time` as whole seconds since the
epoch). -/
structure StoredThrottle where
  count : ℤ
  reset_time : ℤ
deriving DecidableEq, Repr

/-- The seconds component of a Python `timedelta` of `q` whole seconds
(`timedelta.seconds` is the normalised field in `[0, 86400)`, with the days
component floored, which for integers is the nonnegative remainder). -/
def tdSeconds (q : ℤ) : ℤ := q % 86400

/-- Result of `check_throttle`: the admission flag, the remaining cooldown
returned alongside a rejection, and the record (with its `ex` expiry seconds)
that `redis_client.set` wrote, if the call wrote one. -/
structure ThrottleOutcome where
  allowed : Bool
  cooldown_remaining : Option ℤ
  written : Option (StoredThrottle × ℤ)
deriving DecidableEq, Repr

/-- Function `check_throttle(ip, redis)` (lines 96 to 138).  When the key holds
a value, the code runs `count = float(count)` and then
`reset_time = datetime.strptime(reset_time, ...)` — but the module is imported
as `import datetime`, and the `datetime` module has no attribute `strptime`
(only the `datetime.datetime` class does), so every call that finds an existing
record raises `AttributeError`.  When the key is absent: `count, reset_time =
0, now + THROTTLE_PERIOD`; then `count += 1`; if `count > THROTTLE_LIMIT` the
cooldown branch would set `reset_time = now + COOLDOWN_PERIOD` and `count = 0`;
finally the pair is stored with expiry `max(int((reset_time - now).seconds),
1)` and `(True, None)` is returned. -/
def check_throttle (current : Option StoredThrottle) (now : ℤ) :
    Except PyErr ThrottleOutcome :=
  match current with
  | some _ => .error (.attributeError "module datetime has no attribute strptime")
  | none =>
    let count : ℤ := 0
    let reset_time : ℤ := now + THROTTLE_PERIOD
    let count := count + 1
    let (count, reset_time) :=
      if THROTTLE_LIMIT < count then (0, now + COOLDOWN_PERIOD)
      else (count, reset_time)
    .ok { allowed := true, cooldown_remaining := none,
          written := some ({ count := count, reset_time := reset_time },
                           max (tdSeconds (reset_time - now)) 1) }

end PlayersService

namespace JwtAuth

/-!
Embedding of `src/Common/in_jwt_auth.py`.  JWTs are embedded abstractly: a
token either carries a claims payload signed with the service secret, or is a
string that fails signature verification; `jwt_decode` models jose `jwt.decode`
with `SECRET_KEY`, which fails closed (`JWTError`) on a bad signature or a past
`exp`.  Wall-clock times are integers (whole seconds since the epoch; no
behaviour of this module distinguishes finer clock resolutions).

The block at lines 167 to 173 of the source is syntactically malformed: the
`HTTPException` call opened at line 168 is never closed and line 172 is a bare
`else:` with an empty suite, so the module as committed does not even import.
The embedding reads that block with its evident bracketing (close the call,
drop the empty `else`) and keeps everything else exactly as written — in
particular the name `RATE_LIMIT` used there, which is bound nowhere in
`Common/in_jwt_auth.py` (it is neither defined nor imported), so evaluating the
comparison raises `NameError`, which `except JWTError` does not catch.
-/

/-- Modelled from the spec: `Common/in_config.py` is not under `src/`.  The
spec describes the two token lifetimes as a short configurable number of
minutes and a long configurable number of days. -/
structure Config where
  ACCESS_TOKEN_EXPIRE_MINUTES : ℤ
  REFRESH_TOKEN_EXPIRE_DAYS : ℤ
deriving DecidableEq, Repr

/-- Modelled from the spec: `Common/in_models.py` (the ORM user row imported as
`DBUser`) is not under `src/`.  Spec section 6 gives the credential store
record as `userId`, `username`, `hashedPassword`, `disabled`, keyed for lookup
(`session.get` fetches by primary key, here `userId`). -/
structure DBUser where
  userId : ℤ
  username : String
  hashedPassword : String
  disabled : Bool
deriving DecidableEq, Repr

/-- The claims dict passed to the token constructors before `exp` is added:
the optional `sub` and `req_count` entries. -/
structure TokenData where
  sub : Option String
  req_count : Option ℤ
deriving DecidableEq, Repr

/-- The claims set of a decoded token: `sub`, `req_count` (each absent when the
dict never carried the key, read back with `payload.get`) and the `exp`
timestamp. -/
structure JwtPayload where
  sub : Option String
  req_count : Option ℤ
  exp : ℤ
deriving DecidableEq, Repr

/-- A JWT as this code can observe it: either signed with `SECRET_KEY` and
carrying a payload, or a string on which signature verification fails. -/
inductive Jwt where
  | signed (p : JwtPayload)
  | invalid (s : String)
deriving DecidableEq, Repr

/-- Python truthiness of a token header value: only the empty string is falsy
(`Header(...)` makes both headers required, so `None` never reaches the body;
a signed token serialises to a nonempty string). -/
def Jwt.falsy : Jwt → Bool
  | .signed _ => false
  | .invalid s => decide (s = "")

/-- jose `jwt.decode(token, SECRET_KEY, algorithms=[ALGORITHM])`: raises
`JWTError` when the signature does not verify or when the embedded `exp` lies
strictly in the past; otherwise returns the claims payload. -/
def jwt_decode (t : Jwt) (now : ℤ) : Except Unit JwtPayload :=
  match t with
  | .signed p => if p.exp < now then .error () else .ok p
  | .invalid _ => .error ()

/-- Function `create_access_token(data, expires_delta)` (lines 83 to 103):
copies `data`, sets `exp` to `now` plus `expires_delta` (or the configured
access-token minutes when no delta is given) and signs with `SECRET_KEY`. -/
def create_access_token (data : TokenData) (expires_delta : Option ℤ)
    (cfg : Config) (now : ℤ) : Jwt :=
  .signed { sub := data.sub, req_count := data.req_count,
            exp := now + expires_delta.getD (cfg.ACCESS_TOKEN_EXPIRE_MINUTES * 60) }

/-- Function `create_refresh_token(data, expires_delta)` (lines 106 to 124):
copies `data`, sets `exp` to `now` plus `expires_delta` (or the configured
refresh-token days when no delta is given) and signs with `SECRET_KEY`. -/
def create_refresh_token (data : TokenData) (expires_delta : Option ℤ)
    (cfg : Config) (now : ℤ) : Jwt :=
  .signed { sub := data.sub, req_count := data.req_count,
            exp := now + expires_delta.getD (cfg.REFRESH_TOKEN_EXPIRE_DAYS * 86400) }

/-- The `Token` response schema of `Common/in_schemas.py`: `access_token`,
`refresh_token`, `token_type`. -/
structure TokenPair where
  access_token : Jwt
  refresh_token : Jwt
  token_type : String
deriving DecidableEq, Repr

/-- An HTTPException raised by this module, identified by its detail text. -/
inductive HttpDetail where
  | missingTokens
  | rateLimitExceeded
  | accessTokenInvalid
  | refreshTokenInvalid
  | refreshTokenExpired
  | couldNotValidate
  | incorrectUserOrPassword
deriving DecidableEq, Repr

/-- How a call into this module fails: a deliberately raised `HTTPException`,
or an uncaught Python runtime error. -/
inductive Failure where
  | http (d : HttpDetail)
  | runtime (e : PyErr)
deriving DecidableEq, Repr

/-- Function `authenticate_user(user_id, password)` (lines 48 to 80): fetch the
row by primary key; raise 401 when it is absent or the password hash does not
verify; otherwise mint an access token and a refresh token, both from the dict
with `sub = user.username` and `req_count = 0`, with the configured minutes and
days lifetimes, and return them with `token_type = "JWT"`.  The credential
store and the bcrypt verifier are the external collaborators `db` and
`verify`. -/
def authenticate_user (db : ℤ → Option DBUser) (verify : String → String → Bool)
    (cfg : Config) (now : ℤ) (user_id : ℤ) (password : String) :
    Except Failure TokenPair :=
  match db user_id with
  | none => .error (.http .incorrectUserOrPassword)
  | some user =>
    if verify password user.hashedPassword then
      .ok { access_token :=
              create_access_token { sub := some user.username, req_count := some 0 }
                (some (cfg.ACCESS_TOKEN_EXPIRE_MINUTES * 60)) cfg now,
            refresh_token :=
              create_refresh_token { sub := some user.username, req_count := some 0 }
                (some (cfg.REFRESH_TOKEN_EXPIRE_DAYS * 86400)) cfg now,
            token_type := "JWT" }
    else
      .error (.http .incorrectUserOrPassword)

/-- Python `int(s)` on a string: optional surrounding whitespace, an optional
sign, then decimal digits; anything else raises `ValueError`.  (Digit-grouping
underscores are not modelled; no modelled input contains one.) -/
def pyIntOfStr (s : String) : Option ℤ :=
  let t := ((s.toList.dropWhile Char.isWhitespace).reverse.dropWhile
    Char.isWhitespace).reverse
  let sign : ℤ := match t with | c :: _ => if c = Char.ofNat 45 then -1 else 1 | [] => 1
  let digits := match t with
    | c :: rest => if c = Char.ofNat 45 ∨ c = Char.ofNat 43 then rest else t
    | [] => t
  if digits ≠ [] ∧ digits.all Char.isDigit then
    some (sign * digits.foldl (fun acc c => 10 * acc + ((c.toNat : ℤ) - 48)) 0)
  else
    none

/-- Lines 205 to 218 of `get_current_user`: resolve
`session.get(DBUser, int(username))` — `int(username)` raises `ValueError` on a
non-numeric subject — raising the `credentials_exception` (401, could not
validate credentials) when no row exists.  Line 212 then copies the row into
the `Common.in_schemas.User` schema (the copy is modelled as returning the
resolved row; the ORM row type is not under `src/`).  When a new access token
was minted, lines 215 and 216 assign `user.access_token` and
`user.refresh_token` — but `in_schemas.User` declares only the fields `userId`,
`userName`, `fullName`, `email`, `token`, and a pydantic model rejects
assignment to an undeclared field with `ValueError`, so the rotated pair is
never surfaced. -/
def resolve_and_surface (db : ℤ → Option DBUser) (username : String)
    (new_access_token : Option Jwt) : Except Failure DBUser :=
  match pyIntOfStr username with
  | none => .error (.runtime (.valueError "invalid literal for int"))
  | some uid =>
    match db uid with
    | none => .error (.http .couldNotValidate)
    | some user =>
      match new_access_token with
      | some _ => .error (.runtime (.valueError "User object has no field access_token"))
      | none => .ok user

/-- The observable result of one `get_current_user` call: its outcome, plus two
pieces of instrumentation the claims quantify over — whether `jwt.decode` was
ever attempted on the refresh token, and the new access token created at line
193 when that line ran. -/
structure GcuResult where
  outcome : Except Failure DBUser
  refresh_decoded : Bool
  minted : Option Jwt
deriving DecidableEq, Repr

/-- Function `get_current_user(x_access_token, x_refresh_token)` (lines 127 to
218).  Raise 401 when either header is falsy; try to decode the access token:
on success the code reads `sub` and `req_count` and runs the quota check
`if req_count > RATE_LIMIT:` — `RATE_LIMIT` is unbound in this module, so the
check raises `NameError`, which `except JWTError` does not catch (see the
namespace comment about the malformed source block here).  On `JWTError` it
decodes the refresh token: invalid or expired raises 401 refresh-token-expired;
a payload without `sub` raises 401 refresh-token-invalid; otherwise a brand-new
access token is created from `{"sub": username}` with the configured
access-token minutes, and control reaches the shared resolution tail
(`resolve_and_surface`). -/
def get_current_user (db : ℤ → Option DBUser) (cfg : Config) (now : ℤ)
    (x_access_token x_refresh_token : Jwt) : GcuResult :=
  if x_access_token.falsy || x_refresh_token.falsy then
    { outcome := .error (.http .missingTokens), refresh_decoded := false, minted := none }
  else
    match jwt_decode x_access_token now with
    | .ok _payload =>
      { outcome := .error (.runtime (.nameError "RATE_LIMIT")),
        refresh_decoded := false, minted := none }
    | .error _ =>
      match jwt_decode x_refresh_token now with
      | .ok payload =>
        match payload.sub with
        | none =>
          { outcome := .error (.http .refreshTokenInvalid),
            refresh_decoded := true, minted := none }
        | some username =>
          let tok := create_access_token { sub := some username, req_count := none }
              (some (cfg.ACCESS_TOKEN_EXPIRE_MINUTES * 60)) cfg now
          { outcome := resolve_and_surface db username (some tok),
            refresh_decoded := true, minted := some tok }
      | .error _ =>
        { outcome := .error (.http .refreshTokenExpired),
          refresh_decoded := true, minted := none }

end JwtAuth

/-!
Theorems settling the claims.
-/

/-- C1: the claim says a call with an expired access token and a valid refresh
token mints a new access token for the same subject and surfaces it to the
caller together with the resolved identity.  At such a call the embedded code
does decode the refresh token and mint the token for the same subject, but the
call then fails with a runtime `ValueError` instead of returning the identity
with the new pair: `Common.in_schemas.User` declares no `access_token` field,
so the assignment at line 215 is rejected (and the module as committed does not
even import, see the `JwtAuth` header).  Nothing is surfaced. -/
theorem C1_refresh_rotation_never_surfaced :
    let db : ℤ → Option JwtAuth.DBUser := fun i =>
      if i = 1 then some { userId := 1, username := "1",
                           hashedPassword := "hp", disabled := false } else none
    let cfg : JwtAuth.Config :=
      { ACCESS_TOKEN_EXPIRE_MINUTES := 30, REFRESH_TOKEN_EXPIRE_DAYS := 7 }
    let r := JwtAuth.get_current_user db cfg 1000
      (.signed { sub := some "1", req_count := some 0, exp := 500 })
      (.signed { sub := some "1", req_count := some 0, exp := 100000 })
    r.refresh_decoded = true
    ∧ r.minted = some (.signed { sub := some "1", req_count := none, exp := 2800 })
    ∧ r.outcome = .error (.runtime (.valueError "User object has no field access_token")) := by
  exact ⟨rfl, rfl, rfl⟩

/-- C2: the claim describes the Normal-to-Cooldown-to-Normal state machine of
`check_throttle`.  In the code, the first request for a key is admitted and a
record is stored, but every later request — the Normal-state requests the claim
says are counted and admitted — raises `AttributeError` while parsing the
stored record (`datetime.strptime` on the `datetime` module, which has no such
attribute), so no counter is ever incremented past 1 and no cooldown ever
begins. -/
theorem C2_throttle_normal_state_crashes :
    PlayersService.check_throttle none 0 =
      .ok { allowed := true, cooldown_remaining := none,
            written := some ({ count := 1, reset_time := 60 }, 60) }
    ∧ PlayersService.check_throttle (some { count := 1, reset_time := 60 }) 10 =
      .error (.attributeError "module datetime has no attribute strptime") := by
  exact ⟨rfl, rfl⟩

/-- C3: the claim says an otherwise valid access token whose `req_count` claim
exceeds the ceiling fails with `RateLimitExceeded` (HTTP 429).  With the
configured ceiling 5 and a validly signed, unexpired access token carrying
`req_count = 6`, the embedded code instead fails with an uncaught `NameError`:
`RATE_LIMIT` is bound nowhere in `Common/in_jwt_auth.py` (as committed the
whole check is inside a syntactically malformed block). -/
theorem C3_quota_check_raises_name_error :
    (JwtAuth.get_current_user (fun _ => none)
      { ACCESS_TOKEN_EXPIRE_MINUTES := 30, REFRESH_TOKEN_EXPIRE_DAYS := 7 } 0
      (.signed { sub := some "1", req_count := some 6, exp := 100 })
      (.signed { sub := some "1", req_count := some 0, exp := 100 })).outcome =
    .error (.runtime (.nameError "RATE_LIMIT")) := by
  exact rfl

/-- C4: the claim says none of the three strategies raise and that
`allow_request` always returns a boolean.  Each of the three raises `TypeError`
on its very first call: `TokenBucket.refill_tokens` adds the `timedelta`
`elapsed * refill_rate` to the integer token count, `LeakyBucket.leak` calls
`int()` on a `timedelta`, and `FixedWindow.allow_request` adds the integer
`window_size` to the `datetime` `window_start`. -/
theorem C4_limiters_raise_type_error :
    (Limiters.TokenBucket.mkBucket (.int 1) (.float 1) 0).allow_request 0 =
      .error (.typeError "unsupported operand types for +")
    ∧ (Limiters.LeakyBucket.mkBucket (.int 1) (.float 1) 0).allow_request 7 0 =
      .error (.typeError "int argument must be a real number not timedelta")
    ∧ (Limiters.FixedWindow.mkWindow (.int 1) (.int 60) 0).allow_request 1 =
      .error (.typeError "unsupported operand types for +") := by
  exact ⟨rfl, rfl, rfl⟩

/-- C5: the claim is a round trip: authentication against a stored record with
a matching password mints a token pair embedding `subject = username` and
`requestCount = 0` (this half holds, first conjunct), and validating that pair
before expiry resolves the subject back to the same record.  Validation
instead dies: decoding the still-valid access token reaches the quota check,
which raises an uncaught `NameError` on the unbound `RATE_LIMIT` (second
conjunct) — and past it the lookup would be `session.get(DBUser,
int("alice"))`, a `ValueError`, since the code converts the username subject to
an integer primary key. -/
theorem C5_issue_validate_round_trip_crashes :
    let db : ℤ → Option JwtAuth.DBUser := fun i =>
      if i = 1 then some { userId := 1, username := "alice",
                           hashedPassword := "hashed", disabled := false } else none
    let verify : String → String → Bool := fun p h => p == "secretpw" && h == "hashed"
    let cfg : JwtAuth.Config :=
      { ACCESS_TOKEN_EXPIRE_MINUTES := 30, REFRESH_TOKEN_EXPIRE_DAYS := 7 }
    JwtAuth.authenticate_user db verify cfg 0 1 "secretpw" =
      .ok { access_token := .signed { sub := some "alice", req_count := some 0, exp := 1800 },
            refresh_token := .signed { sub := some "alice", req_count := some 0, exp := 604800 },
            token_type := "JWT" }
    ∧ (JwtAuth.get_current_user db cfg 60
        (.signed { sub := some "alice", req_count := some 0, exp := 1800 })
        (.signed { sub := some "alice", req_count := some 0, exp := 604800 })).outcome =
      .error (.runtime (.nameError "RATE_LIMIT")) := by
  exact ⟨rfl, rfl⟩

/-- C6: the claim says that with `limit = 3`, `windowSize = 60` the first three
calls inside a window are admitted.  The very first call instead raises
`TypeError`: the window test adds the integer `window_size` to the `datetime`
`window_start`, so no call ever returns a boolean. -/
theorem C6_fixed_window_first_call_raises :
    (Limiters.FixedWindow.mkWindow (.int 3) (.int 60) 0).allow_request 10 =
      .error (.typeError "unsupported operand types for +") := by
  exact rfl

/-- C7: the claim says a full bucket admits `capacity` back-to-back calls with
zero elapsed time.  The first such call already raises `TypeError`: even with
zero elapsed time, `refill_tokens` adds the `timedelta` `elapsed * refill_rate`
to the integer token count. -/
theorem C7_token_bucket_full_bucket_call_raises :
    (Limiters.TokenBucket.mkBucket (.int 2) (.float 1) 0).allow_request 0 =
      .error (.typeError "unsupported operand types for +") := by
  exact rfl

/-- C8: `check_rate_limit` rejects exactly when the stored counter has already
reached `RATE_LIMIT`; a rejected request leaves the store untouched, and an
admitted one increments the counter (1 on a fresh key) and installs a
time-to-live of `RATE_PERIOD` seconds. -/
theorem C8_admission_quota_gate (s : Option PlayersService.RateKey) :
    ((PlayersService.check_rate_limit s).1 = false ↔
      ∃ r, s = some r ∧ PlayersService.RATE_LIMIT ≤ r.value)
    ∧ (PlayersService.check_rate_limit s).2 =
      (if (PlayersService.check_rate_limit s).1
       then some { value := (s.map PlayersService.RateKey.value).getD 0 + 1,
                   ttl := PlayersService.RATE_PERIOD }
       else s) := by
  cases s with
  | none => simp [PlayersService.check_rate_limit]
  | some r =>
    by_cases h : PlayersService.RATE_LIMIT ≤ r.value
    · simp [PlayersService.check_rate_limit, h]
    · simp [PlayersService.check_rate_limit, h]

/-- C9: whenever the access token fails to decode and the refresh token decodes
to a payload with a subject, the access token minted on the refresh path is
built from the dict with only the subject entry — its payload carries the
subject, no `req_count` claim, and the configured access expiry — so any later
successful decode of that token yields an absent `req_count`. -/
theorem C9_rotated_access_token_omits_request_count
    (db : ℤ → Option JwtAuth.DBUser) (cfg : JwtAuth.Config) (now : ℤ)
    (xa xr : JwtAuth.Jwt) (p : JwtAuth.JwtPayload) (u : String)
    (hfa : xa.falsy = false) (hfr : xr.falsy = false)
    (ha : JwtAuth.jwt_decode xa now = .error ())
    (hr : JwtAuth.jwt_decode xr now = .ok p)
    (hsub : p.sub = some u) :
    (JwtAuth.get_current_user db cfg now xa xr).minted =
      some (.signed { sub := some u, req_count := none,
                      exp := now + cfg.ACCESS_TOKEN_EXPIRE_MINUTES * 60 })
    ∧ ∀ t q, JwtAuth.jwt_decode
        (.signed { sub := some u, req_count := none,
                   exp := now + cfg.ACCESS_TOKEN_EXPIRE_MINUTES * 60 }) t = .ok q →
        q.req_count = none := by
  constructor
  · simp [JwtAuth.get_current_user, hfa, hfr, ha, hr, hsub,
      JwtAuth.create_access_token]
  · intro t q h
    simp only [JwtAuth.jwt_decode] at h
    split at h
    · exact Except.noConfusion h
    · cases Except.ok.inj h
      rfl

/-- Witness for C9 at a concrete call: an unverifiable access token together
with a valid refresh token for subject 7 at time 0 under a 30-minute access
lifetime. -/
theorem C9_rotated_access_token_omits_request_count_witness :
    (JwtAuth.get_current_user (fun _ => none)
        { ACCESS_TOKEN_EXPIRE_MINUTES := 30, REFRESH_TOKEN_EXPIRE_DAYS := 7 } 0
        (.invalid "x")
        (.signed { sub := some "7", req_count := some 0, exp := 50 })).minted =
      some (.signed { sub := some "7", req_count := none, exp := 0 + 30 * 60 })
    ∧ ∀ t q, JwtAuth.jwt_decode
        (.signed { sub := some "7", req_count := none, exp := 0 + 30 * 60 }) t = .ok q →
        q.req_count = none :=
  C9_rotated_access_token_omits_request_count (fun _ => none)
    { ACCESS_TOKEN_EXPIRE_MINUTES := 30, REFRESH_TOKEN_EXPIRE_DAYS := 7 } 0
    (.invalid "x") (.signed { sub := some "7", req_count := some 0, exp := 50 })
    { sub := some "7", req_count := some 0, exp := 50 } "7"
    rfl rfl rfl rfl rfl

/-- C10: the claim says the request whose increment pushes the count past
`THROTTLE_LIMIT` is itself admitted, with the cooldown installed for the
following requests.  A stored record with the count at the limit is exactly the
state such a triggering request would arrive at, and there the code raises
`AttributeError` while parsing the record (`datetime.strptime` on the
`datetime` module), so the increment at line 124 and the admit-with-cooldown at
lines 127 to 138 are never reached for any request that found a record. -/
theorem C10_cooldown_trigger_request_crashes :
    PlayersService.check_throttle (some { count := 5, reset_time := 200 }) 120 =
      .error (.attributeError "module datetime has no attribute strptime") := by
  exact rfl

end IntuitDemo
